import Mathlib

/-!
Shallow embedding of the `rcolors` crate: the ANSI attribute catalogue
(`src/ansi.rs`), the styled-content builder (`src/builder.rs`) and the
string-returning convenience macros (`src/macros.rs`), together with
proofs of the specified properties.

Machine-integer detail: `Builder::to_string` computes
`self.content.get(self.content.len() - 1)` on a `usize`.  That subtraction
is modelled two ways: `usize_checked_sub` returns `none` when the
subtraction underflows, modelling the overflow panic of a checked (debug)
build, and `Builder.to_string_wrap` models the two's-complement wrapping
of an unchecked (release) build, where the index wraps to `2 ^ 64 - 1`.
-/

/-- The `Ansi` enumeration of `src/ansi.rs`: one variant per SGR attribute,
each carrying a fixed discriminant (`Reset = 0`, ..., `BgHiWhite = 107`). -/
inductive Ansi where
  | Reset
  | Bold
  | Faint
  | Italic
  | Underline
  | BlinkSlow
  | BlinkRapid
  | ReverseVideo
  | Concealed
  | CrossedOut
  | FgBlack
  | FgRed
  | FgGreen
  | FgYellow
  | FgBlue
  | FgMagenta
  | FgCyan
  | FgWhite
  | FgHiBlack
  | FgHiRed
  | FgHiGreen
  | FgHiYellow
  | FgHiBlue
  | FgHiMagenta
  | FgHiCyan
  | FgHiWhite
  | BgBlack
  | BgRed
  | BgGreen
  | BgYellow
  | BgBlue
  | BgMagenta
  | BgCyan
  | BgWhite
  | BgHiBlack
  | BgHiRed
  | BgHiGreen
  | BgHiYellow
  | BgHiBlue
  | BgHiMagenta
  | BgHiCyan
  | BgHiWhite
deriving DecidableEq, Fintype, Repr

/-- The discriminant of each `Ansi` variant, as written in `src/ansi.rs`
(the Rust `*self as i32`; every discriminant is non-negative). -/
def Ansi.code : Ansi → Nat
  | .Reset => 0
  | .Bold => 1
  | .Faint => 2
  | .Italic => 3
  | .Underline => 4
  | .BlinkSlow => 5
  | .BlinkRapid => 6
  | .ReverseVideo => 7
  | .Concealed => 8
  | .CrossedOut => 9
  | .FgBlack => 30
  | .FgRed => 31
  | .FgGreen => 32
  | .FgYellow => 33
  | .FgBlue => 34
  | .FgMagenta => 35
  | .FgCyan => 36
  | .FgWhite => 37
  | .FgHiBlack => 90
  | .FgHiRed => 91
  | .FgHiGreen => 92
  | .FgHiYellow => 93
  | .FgHiBlue => 94
  | .FgHiMagenta => 95
  | .FgHiCyan => 96
  | .FgHiWhite => 97
  | .BgBlack => 40
  | .BgRed => 41
  | .BgGreen => 42
  | .BgYellow => 43
  | .BgBlue => 44
  | .BgMagenta => 45
  | .BgCyan => 46
  | .BgWhite => 47
  | .BgHiBlack => 100
  | .BgHiRed => 101
  | .BgHiGreen => 102
  | .BgHiYellow => 103
  | .BgHiBlue => 104
  | .BgHiMagenta => 105
  | .BgHiCyan => 106
  | .BgHiWhite => 107

/-- The `Display` implementation for `Ansi` in `src/ansi.rs`:
`write!(f, "\x1b[{}m", *self as i32)`, i.e. ESC `[` decimal code `m`. -/
def Ansi.to_string (a : Ansi) : String :=
  "\x1b[" ++ Nat.repr a.code ++ "m"

/-- The `Entity` enum of `src/builder.rs`: a literal text fragment or an
ANSI attribute marker. -/
inductive Entity where
  | Text (s : String)
  | Ansi (a : Ansi)
deriving DecidableEq

/-- How one entity is serialized on the color-enabled path of
`Builder::to_string`: text verbatim, an attribute as its escape string. -/
def Entity.render : Entity → String
  | .Text t => t
  | .Ansi a => a.to_string

/-- The `Builder` struct of `src/builder.rs`: the ordered content sequence
plus the `no_color` and `force_color` flags. -/
structure Builder where
  content : List Entity
  no_color : Bool
  force_color : Bool
deriving DecidableEq

/-- Checked `usize` subtraction: `none` models the arithmetic-overflow
panic a debug build raises when `a - b` underflows. -/
def usize_checked_sub (a b : Nat) : Option Nat :=
  if b ≤ a then some (a - b) else none

/-- The color-disabled branch of `Builder::to_string` (lines 121-128):
concatenate the `Text` entities in order, skipping `Ansi` entities. -/
def plain_render (l : List Entity) : String :=
  l.foldl
    (fun acc e =>
      match e with
      | .Text t => acc ++ t
      | .Ansi _ => acc)
    ""

/-- The color-enabled branch of `Builder::to_string` (lines 130-139):
look at `content.get(content.len() - 1)`; when it is not the `Reset`
attribute, start with the `Reset` escape; then serialize every entity in
order.  `none` models the index-arithmetic underflow panic on an empty
sequence (checked builds). -/
def color_render (l : List Entity) : Option String :=
  match usize_checked_sub l.length 1 with
  | none => none
  | some i =>
    let start : String :=
      if l[i]? ≠ some (Entity.Ansi Ansi.Reset) then Ansi.Reset.to_string else ""
    some (l.foldl (fun acc e => acc ++ e.render) start)

/-- `Builder::to_string` (lines 119-140), under checked (debug-build)
index arithmetic. -/
def Builder.to_string (b : Builder) : Option String :=
  if b.no_color && !b.force_color then some (plain_render b.content)
  else color_render b.content

/-- `Builder::to_string` under unchecked (release-build) index arithmetic:
`content.len() - 1` wraps modulo `2 ^ 64`, so on an empty sequence the
lookup at index `2 ^ 64 - 1` yields `None`, which differs from
`Some(Reset)`, and a leading reset is emitted. -/
def Builder.to_string_wrap (b : Builder) : String :=
  if b.no_color && !b.force_color then plain_render b.content
  else
    let i : Nat := (b.content.length + (2 ^ 64 - 1)) % 2 ^ 64
    let start : String :=
      if b.content[i]? ≠ some (Entity.Ansi Ansi.Reset) then Ansi.Reset.to_string else ""
    b.content.foldl (fun acc e => acc ++ e.render) start

/-- The `Display` implementation for `Builder` (lines 32-37):
`write!(f, "{}", self.to_string())`, modelled as writing the rendered
string into an initially empty formatter buffer. -/
def fmt_write (buf s : String) : String := buf ++ s

/-- The string produced by formatting a `Builder` through its `Display`
implementation (as `print!`, `println!` and `format!` do). -/
def Builder.display (b : Builder) : Option String :=
  b.to_string.map (fun s => fmt_write "" s)

/-- `Builder::text` (lines 70-73): push a `Text` entity. -/
def Builder.text (b : Builder) (s : String) : Builder :=
  { b with content := b.content ++ [Entity.Text s] }

/-- `Builder::ansi` (lines 170-173): push an `Ansi` entity. -/
def Builder.ansi (b : Builder) (a : Ansi) : Builder :=
  { b with content := b.content ++ [Entity.Ansi a] }

/-- `Builder::reset` (lines 190-193). -/
def Builder.reset (b : Builder) : Builder :=
  { b with content := b.content ++ [Entity.Ansi Ansi.Reset] }

/-- `Builder::bold` (lines 210-213). -/
def Builder.bold (b : Builder) : Builder :=
  { b with content := b.content ++ [Entity.Ansi Ansi.Bold] }

/-- `Builder::faint`. -/
def Builder.faint (b : Builder) : Builder :=
  { b with content := b.content ++ [Entity.Ansi Ansi.Faint] }

/-- `Builder::italic`. -/
def Builder.italic (b : Builder) : Builder :=
  { b with content := b.content ++ [Entity.Ansi Ansi.Italic] }

/-- `Builder::underline`. -/
def Builder.underline (b : Builder) : Builder :=
  { b with content := b.content ++ [Entity.Ansi Ansi.Underline] }

/-- `Builder::blink_slow`. -/
def Builder.blink_slow (b : Builder) : Builder :=
  { b with content := b.content ++ [Entity.Ansi Ansi.BlinkSlow] }

/-- `Builder::blink_rapid`. -/
def Builder.blink_rapid (b : Builder) : Builder :=
  { b with content := b.content ++ [Entity.Ansi Ansi.BlinkRapid] }

/-- `Builder::reverse_video`. -/
def Builder.reverse_video (b : Builder) : Builder :=
  { b with content := b.content ++ [Entity.Ansi Ansi.ReverseVideo] }

/-- `Builder::concealed`. -/
def Builder.concealed (b : Builder) : Builder :=
  { b with content := b.content ++ [Entity.Ansi Ansi.Concealed] }

/-- `Builder::crossed_out`. -/
def Builder.crossed_out (b : Builder) : Builder :=
  { b with content := b.content ++ [Entity.Ansi Ansi.CrossedOut] }

/-- `Builder::fg_black`. -/
def Builder.fg_black (b : Builder) : Builder :=
  { b with content := b.content ++ [Entity.Ansi Ansi.FgBlack] }

/-- `Builder::fg_red`. -/
def Builder.fg_red (b : Builder) : Builder :=
  { b with content := b.content ++ [Entity.Ansi Ansi.FgRed] }

/-- `Builder::fg_green`. -/
def Builder.fg_green (b : Builder) : Builder :=
  { b with content := b.content ++ [Entity.Ansi Ansi.FgGreen] }

/-- `Builder::fg_yellow`. -/
def Builder.fg_yellow (b : Builder) : Builder :=
  { b with content := b.content ++ [Entity.Ansi Ansi.FgYellow] }

/-- `Builder::fg_blue`. -/
def Builder.fg_blue (b : Builder) : Builder :=
  { b with content := b.content ++ [Entity.Ansi Ansi.FgBlue] }

/-- `Builder::fg_magenta`. -/
def Builder.fg_magenta (b : Builder) : Builder :=
  { b with content := b.content ++ [Entity.Ansi Ansi.FgMagenta] }

/-- `Builder::fg_cyan`. -/
def Builder.fg_cyan (b : Builder) : Builder :=
  { b with content := b.content ++ [Entity.Ansi Ansi.FgCyan] }

/-- `Builder::fg_white`. -/
def Builder.fg_white (b : Builder) : Builder :=
  { b with content := b.content ++ [Entity.Ansi Ansi.FgWhite] }

/-- `Builder::fg_hi_black`. -/
def Builder.fg_hi_black (b : Builder) : Builder :=
  { b with content := b.content ++ [Entity.Ansi Ansi.FgHiBlack] }

/-- `Builder::fg_hi_red`. -/
def Builder.fg_hi_red (b : Builder) : Builder :=
  { b with content := b.content ++ [Entity.Ansi Ansi.FgHiRed] }

/-- `Builder::fg_hi_green`. -/
def Builder.fg_hi_green (b : Builder) : Builder :=
  { b with content := b.content ++ [Entity.Ansi Ansi.FgHiGreen] }

/-- `Builder::fg_hi_yellow`. -/
def Builder.fg_hi_yellow (b : Builder) : Builder :=
  { b with content := b.content ++ [Entity.Ansi Ansi.FgHiYellow] }

/-- `Builder::fg_hi_blue`. -/
def Builder.fg_hi_blue (b : Builder) : Builder :=
  { b with content := b.content ++ [Entity.Ansi Ansi.FgHiBlue] }

/-- `Builder::fg_hi_magenta`. -/
def Builder.fg_hi_magenta (b : Builder) : Builder :=
  { b with content := b.content ++ [Entity.Ansi Ansi.FgHiMagenta] }

/-- `Builder::fg_hi_cyan`. -/
def Builder.fg_hi_cyan (b : Builder) : Builder :=
  { b with content := b.content ++ [Entity.Ansi Ansi.FgHiCyan] }

/-- `Builder::fg_hi_white`. -/
def Builder.fg_hi_white (b : Builder) : Builder :=
  { b with content := b.content ++ [Entity.Ansi Ansi.FgHiWhite] }

/-- `Builder::bg_black`. -/
def Builder.bg_black (b : Builder) : Builder :=
  { b with content := b.content ++ [Entity.Ansi Ansi.BgBlack] }

/-- `Builder::bg_red`. -/
def Builder.bg_red (b : Builder) : Builder :=
  { b with content := b.content ++ [Entity.Ansi Ansi.BgRed] }

/-- `Builder::bg_green`. -/
def Builder.bg_green (b : Builder) : Builder :=
  { b with content := b.content ++ [Entity.Ansi Ansi.BgGreen] }

/-- `Builder::bg_yellow`. -/
def Builder.bg_yellow (b : Builder) : Builder :=
  { b with content := b.content ++ [Entity.Ansi Ansi.BgYellow] }

/-- `Builder::bg_blue`. -/
def Builder.bg_blue (b : Builder) : Builder :=
  { b with content := b.content ++ [Entity.Ansi Ansi.BgBlue] }

/-- `Builder::bg_magenta`. -/
def Builder.bg_magenta (b : Builder) : Builder :=
  { b with content := b.content ++ [Entity.Ansi Ansi.BgMagenta] }

/-- `Builder::bg_cyan`. -/
def Builder.bg_cyan (b : Builder) : Builder :=
  { b with content := b.content ++ [Entity.Ansi Ansi.BgCyan] }

/-- `Builder::bg_white`. -/
def Builder.bg_white (b : Builder) : Builder :=
  { b with content := b.content ++ [Entity.Ansi Ansi.BgWhite] }

/-- `Builder::bg_hi_black`. -/
def Builder.bg_hi_black (b : Builder) : Builder :=
  { b with content := b.content ++ [Entity.Ansi Ansi.BgHiBlack] }

/-- `Builder::bg_hi_red`. -/
def Builder.bg_hi_red (b : Builder) : Builder :=
  { b with content := b.content ++ [Entity.Ansi Ansi.BgHiRed] }

/-- `Builder::bg_hi_green`. -/
def Builder.bg_hi_green (b : Builder) : Builder :=
  { b with content := b.content ++ [Entity.Ansi Ansi.BgHiGreen] }

/-- `Builder::bg_hi_yellow`. -/
def Builder.bg_hi_yellow (b : Builder) : Builder :=
  { b with content := b.content ++ [Entity.Ansi Ansi.BgHiYellow] }

/-- `Builder::bg_hi_blue`. -/
def Builder.bg_hi_blue (b : Builder) : Builder :=
  { b with content := b.content ++ [Entity.Ansi Ansi.BgHiBlue] }

/-- `Builder::bg_hi_magenta`. -/
def Builder.bg_hi_magenta (b : Builder) : Builder :=
  { b with content := b.content ++ [Entity.Ansi Ansi.BgHiMagenta] }

/-- `Builder::bg_hi_cyan`. -/
def Builder.bg_hi_cyan (b : Builder) : Builder :=
  { b with content := b.content ++ [Entity.Ansi Ansi.BgHiCyan] }

/-- `Builder::bg_hi_white`. -/
def Builder.bg_hi_white (b : Builder) : Builder :=
  { b with content := b.content ++ [Entity.Ansi Ansi.BgHiWhite] }

/-- Modelled from the spec: the source's `Builder` declares the
`force_color` field and `to_string` consults it, but no method in
`src/builder.rs` sets it (the repository's tests assign the private field
directly).  The spec says `forceColorOn() -> Builder` "sets
`forceColor = true`" and nothing else. -/
def Builder.force_color_on (b : Builder) : Builder :=
  { b with force_color := true }

/-- The `color_sprint!` macro of `src/macros.rs` (lines 45-51):
`format!("{}{}{}", color, text, Ansi::Reset)`. -/
def color_sprint (color : Ansi) (text : String) : String :=
  color.to_string ++ text ++ Ansi.Reset.to_string

/-- The `red!` macro of `src/macros.rs`: `color_sprint!(Ansi::FgRed, text)`. -/
def red (text : String) : String :=
  color_sprint Ansi.FgRed text

/-- Specification-shaped serialization of a content sequence on the
color-enabled path: every entity rendered, in order. -/
def render_all (l : List Entity) : String :=
  String.join (l.map Entity.render)

/-- Specification-shaped serialization on the color-disabled path: the
contents of the `Text` entities only, in order. -/
def text_only (l : List Entity) : String :=
  String.join
    (l.filterMap fun e =>
      match e with
      | .Text t => some t
      | .Ansi _ => none)

/-! ### Helper lemmas -/

/-- `Ansi::Reset` renders to the four-byte reset escape. -/
theorem reset_to_string : Ansi.Reset.to_string = "\x1b[0m" := rfl

/-- The plain-text branch guard `no_color && !force_color` is false whenever
color is enabled (`no_color` unset or `force_color` set). -/
theorem and_not_eq_false (nc fc : Bool) (hc : nc = false ∨ fc = true) :
    (nc && !fc) = false := by
  rcases hc with h | h <;> subst h <;> simp

/-- Folding string concatenation over any list factors the initial
accumulator out front. -/
theorem string_foldl_append (xs : List String) (init : String) :
    xs.foldl (fun r s => r ++ s) init = init ++ xs.foldl (fun r s => r ++ s) "" := by
  induction xs generalizing init with
  | nil => simp [String.append_empty]
  | cons x xs ih =>
    simp only [List.foldl_cons]
    rw [ih (init ++ x), ih ("" ++ x), String.empty_append, String.append_assoc]

/-- `String.join` peels its head element off as a prefix. -/
theorem string_join_cons (s : String) (xs : List String) :
    String.join (s :: xs) = s ++ String.join xs := by
  show List.foldl (fun r t => r ++ t) "" (s :: xs) = _
  rw [List.foldl_cons, string_foldl_append, String.empty_append]
  rfl

/-- The serialization loop of the color-enabled branch equals its initial
string followed by the joined per-entity renderings. -/
theorem foldl_append_eq (g : Entity → String) (l : List Entity) (init : String) :
    l.foldl (fun acc e => acc ++ g e) init = init ++ String.join (l.map g) := by
  rw [← List.foldl_map g (fun r s => r ++ s)]
  show List.foldl (fun r s => r ++ s) init (l.map g) = init ++ String.join (l.map g)
  rw [string_foldl_append]
  rfl

/-- The concatenation loop of the color-disabled branch equals its initial
string followed by the joined `Text` contents. -/
theorem plain_foldl_eq (l : List Entity) (init : String) :
    l.foldl
      (fun acc e =>
        match e with
        | .Text t => acc ++ t
        | .Ansi _ => acc)
      init = init ++ text_only l := by
  induction l generalizing init with
  | nil => simp [text_only, String.join, String.append_empty]
  | cons e t ih =>
    cases e with
    | Text s =>
      simp only [List.foldl_cons]
      rw [ih (init ++ s)]
      simp only [text_only, List.filterMap_cons]
      rw [string_join_cons, ← String.append_assoc]
    | Ansi a =>
      simp only [List.foldl_cons]
      rw [ih init]
      simp only [text_only, List.filterMap_cons]

/-! ### Claim theorems -/

/-- C1: the claim says a color-enabled builder with zero entities renders
to `""` with no leading reset.  The code instead computes
`content.get(content.len() - 1)`: on an empty sequence the `usize`
subtraction underflows, so a checked (debug) build panics (modelled as
`none`), and an unchecked (release) build wraps the index and emits a
spurious leading reset, rendering `"\x1b[0m"` rather than `""`. -/
theorem empty_builder_color_render_diverges :
    Builder.to_string ⟨[], false, false⟩ = none ∧
    Builder.to_string_wrap ⟨[], false, false⟩ = "\x1b[0m" :=
  ⟨rfl, by decide⟩

/-- C2: the claim says `to_string` never fails on any reachable builder
state.  It fails on exactly one family of states: with color enabled and
an empty content sequence the `content.len() - 1` subtraction underflows
(`none` models the checked-build panic); on every non-empty sequence, and
on every color-disabled state, rendering succeeds. -/
theorem to_string_underflow_empty_total_nonempty :
    Builder.to_string ⟨[], true, true⟩ = none ∧
    (∀ (e : Entity) (l : List Entity) (nc fc : Bool),
      (Builder.to_string ⟨e :: l, nc, fc⟩).isSome = true) ∧
    (∀ l : List Entity, (Builder.to_string ⟨l, true, false⟩).isSome = true) := by
  refine ⟨rfl, ?_, fun l => by rw [Builder.to_string]; simp⟩
  intro e l nc fc
  rw [Builder.to_string]
  cases hc : (nc && !fc) with
  | true => simp
  | false =>
    simp only [Bool.false_eq_true, if_false]
    rw [color_render]
    have hsub : usize_checked_sub (e :: l).length 1 = some l.length := by
      simp [usize_checked_sub]
    rw [hsub]
    simp

/-- C3: with color enabled and a non-empty content sequence, `to_string`
returns the in-order serialization of the entities, prefixed by the reset
escape `"\x1b[0m"` exactly when the last appended entity is not the
`Reset` attribute. -/
theorem to_string_color_enabled_leading_reset (e : Entity) (l : List Entity)
    (nc fc : Bool) (hc : nc = false ∨ fc = true) :
    Builder.to_string ⟨e :: l, nc, fc⟩ =
      some ((if (e :: l).getLast? = some (Entity.Ansi Ansi.Reset) then "" else "\x1b[0m")
        ++ render_all (e :: l)) := by
  rw [Builder.to_string]
  simp only [and_not_eq_false nc fc hc, Bool.false_eq_true, if_false]
  rw [color_render]
  have hsub : usize_checked_sub (e :: l).length 1 = some l.length := by
    simp [usize_checked_sub]
  rw [hsub]
  have hlast : (e :: l)[l.length]? = (e :: l).getLast? := by
    rw [List.getLast?_eq_getElem?]
    simp
  simp only [hlast]
  by_cases h : (e :: l).getLast? = some (Entity.Ansi Ansi.Reset)
  · rw [if_neg (not_not_intro h), if_pos h]
    rw [foldl_append_eq]
    rfl
  · rw [if_pos h, if_neg h]
    rw [foldl_append_eq, reset_to_string]
    rfl

/-- C3 witness: a single-`Text` builder with color enabled renders with a
leading reset. -/
theorem to_string_color_enabled_leading_reset_witness :
    ((false : Bool) = false ∨ (false : Bool) = true) ∧
    Builder.to_string ⟨[Entity.Text "ok"], false, false⟩ =
      some ((if ([Entity.Text "ok"] : List Entity).getLast? = some (Entity.Ansi Ansi.Reset)
        then "" else "\x1b[0m") ++ render_all [Entity.Text "ok"]) :=
  ⟨Or.inl rfl,
    to_string_color_enabled_leading_reset (Entity.Text "ok") [] false false (Or.inl rfl)⟩

/-- C4: with `no_color = true` and `force_color = false`, `to_string`
returns exactly the in-order concatenation of the `Text` entities'
contents, eliding every attribute entity. -/
theorem to_string_color_disabled_texts_only (l : List Entity) :
    Builder.to_string ⟨l, true, false⟩ = some (text_only l) := by
  rw [Builder.to_string]
  simp only [Bool.not_false, Bool.and_true, if_true]
  rw [plain_render, plain_foldl_eq, String.empty_append]

/-- C5: `force_color_on` (modelled from the spec, see its definition) sets
only the `force_color` flag; `to_string` takes the escape-emitting branch
exactly when `force_color || !no_color`, so after `force_color_on` the
escape branch is taken even with `no_color = true`. -/
theorem force_color_on_escape_path :
    (∀ b : Builder, Builder.force_color_on b =
      ⟨b.content, b.no_color, true⟩) ∧
    (∀ b : Builder, Builder.to_string b =
      if b.force_color || !b.no_color then color_render b.content
      else some (plain_render b.content)) ∧
    (∀ l : List Entity,
      Builder.to_string (Builder.force_color_on ⟨l, true, false⟩) = color_render l) := by
  refine ⟨fun b => rfl, fun b => ?_, fun l => rfl⟩
  obtain ⟨c, nc, fc⟩ := b
  cases nc <;> cases fc <;> rfl

/-- C6: `color_sprint!` returns attribute escape, then the literal, then
the reset escape, and this is byte-identical to rendering a force-color
builder built by `ansi(a)`, `text(s)`, `reset()`; the `red!` wrapper on
`"hi"` yields `"\x1b[31mhi\x1b[0m"`. -/
theorem color_sprint_equiv_builder (a : Ansi) (s : String) (nc : Bool) :
    Builder.to_string ((((Builder.mk [] nc true).ansi a).text s).reset) =
      some (color_sprint a s) ∧
    color_sprint a s = a.to_string ++ s ++ Ansi.Reset.to_string ∧
    red "hi" = "\x1b[31mhi\x1b[0m" := by
  refine ⟨?_, rfl, by decide⟩
  show Builder.to_string ⟨[Entity.Ansi a, Entity.Text s, Entity.Ansi Ansi.Reset], nc, true⟩ = _
  rw [Builder.to_string]
  simp only [Bool.not_true, Bool.and_false, Bool.false_eq_true, if_false]
  rw [color_render]
  have hsub :
      usize_checked_sub ([Entity.Ansi a, Entity.Text s, Entity.Ansi Ansi.Reset].length) 1 =
        some 2 := rfl
  rw [hsub]
  simp [Entity.render, color_sprint, String.empty_append, String.append_assoc]

/-- C7: every attribute renders as the byte 0x1B, then `[`, then the
decimal digits of its SGR code (non-empty, all ASCII digits, leading `0`
only for code 0), then `m`. -/
theorem ansi_display_format (a : Ansi) :
    (a.to_string).data = '\x1b' :: '[' :: ((Nat.repr a.code).data ++ ['m']) ∧
    ((Nat.repr a.code).data.all Char.isDigit) = true ∧
    1 ≤ (Nat.repr a.code).data.length ∧
    (((Nat.repr a.code).data.head? == some '0') = (a.code == 0)) := by
  cases a <;> decide

/-- C8: the attribute catalogue is injective (on codes, hence also on the
rendered escape strings) and every code lies in the SGR style, foreground
or background ranges. -/
theorem ansi_catalogue_injective_in_range :
    (∀ a b : Ansi, Ansi.code a = Ansi.code b → a = b) ∧
    (∀ a b : Ansi, Ansi.to_string a = Ansi.to_string b → a = b) ∧
    (∀ a : Ansi, Ansi.code a ≤ 9 ∨
      (30 ≤ Ansi.code a ∧ Ansi.code a ≤ 37) ∨ (90 ≤ Ansi.code a ∧ Ansi.code a ≤ 97) ∨
      (40 ≤ Ansi.code a ∧ Ansi.code a ≤ 47) ∨ (100 ≤ Ansi.code a ∧ Ansi.code a ≤ 107)) :=
  ⟨by decide, by decide, by decide⟩

/-- C8 witness: the injectivity conjunct applied at `Bold` with its
equal-code hypothesis discharged by `rfl`. -/
theorem ansi_catalogue_injective_in_range_witness : Ansi.Bold = Ansi.Bold :=
  ansi_catalogue_injective_in_range.1 Ansi.Bold Ansi.Bold rfl

/-- C9: every accumulation operation appends exactly one entity at the end
of the content sequence, leaving the earlier entities and both flags
unchanged. -/
theorem append_ops_append_one_entity (b : Builder) (s : String) (a : Ansi) :
    b.text s = ⟨b.content ++ [Entity.Text s], b.no_color, b.force_color⟩ ∧
    b.ansi a = ⟨b.content ++ [Entity.Ansi a], b.no_color, b.force_color⟩ ∧
    b.reset = ⟨b.content ++ [Entity.Ansi Ansi.Reset], b.no_color, b.force_color⟩ ∧
    b.bold = ⟨b.content ++ [Entity.Ansi Ansi.Bold], b.no_color, b.force_color⟩ ∧
    b.faint = ⟨b.content ++ [Entity.Ansi Ansi.Faint], b.no_color, b.force_color⟩ ∧
    b.italic = ⟨b.content ++ [Entity.Ansi Ansi.Italic], b.no_color, b.force_color⟩ ∧
    b.underline = ⟨b.content ++ [Entity.Ansi Ansi.Underline], b.no_color, b.force_color⟩ ∧
    b.blink_slow = ⟨b.content ++ [Entity.Ansi Ansi.BlinkSlow], b.no_color, b.force_color⟩ ∧
    b.blink_rapid = ⟨b.content ++ [Entity.Ansi Ansi.BlinkRapid], b.no_color, b.force_color⟩ ∧
    b.reverse_video = ⟨b.content ++ [Entity.Ansi Ansi.ReverseVideo], b.no_color, b.force_color⟩ ∧
    b.concealed = ⟨b.content ++ [Entity.Ansi Ansi.Concealed], b.no_color, b.force_color⟩ ∧
    b.crossed_out = ⟨b.content ++ [Entity.Ansi Ansi.CrossedOut], b.no_color, b.force_color⟩ ∧
    b.fg_black = ⟨b.content ++ [Entity.Ansi Ansi.FgBlack], b.no_color, b.force_color⟩ ∧
    b.fg_red = ⟨b.content ++ [Entity.Ansi Ansi.FgRed], b.no_color, b.force_color⟩ ∧
    b.fg_green = ⟨b.content ++ [Entity.Ansi Ansi.FgGreen], b.no_color, b.force_color⟩ ∧
    b.fg_yellow = ⟨b.content ++ [Entity.Ansi Ansi.FgYellow], b.no_color, b.force_color⟩ ∧
    b.fg_blue = ⟨b.content ++ [Entity.Ansi Ansi.FgBlue], b.no_color, b.force_color⟩ ∧
    b.fg_magenta = ⟨b.content ++ [Entity.Ansi Ansi.FgMagenta], b.no_color, b.force_color⟩ ∧
    b.fg_cyan = ⟨b.content ++ [Entity.Ansi Ansi.FgCyan], b.no_color, b.force_color⟩ ∧
    b.fg_white = ⟨b.content ++ [Entity.Ansi Ansi.FgWhite], b.no_color, b.force_color⟩ ∧
    b.fg_hi_black = ⟨b.content ++ [Entity.Ansi Ansi.FgHiBlack], b.no_color, b.force_color⟩ ∧
    b.fg_hi_red = ⟨b.content ++ [Entity.Ansi Ansi.FgHiRed], b.no_color, b.force_color⟩ ∧
    b.fg_hi_green = ⟨b.content ++ [Entity.Ansi Ansi.FgHiGreen], b.no_color, b.force_color⟩ ∧
    b.fg_hi_yellow = ⟨b.content ++ [Entity.Ansi Ansi.FgHiYellow], b.no_color, b.force_color⟩ ∧
    b.fg_hi_blue = ⟨b.content ++ [Entity.Ansi Ansi.FgHiBlue], b.no_color, b.force_color⟩ ∧
    b.fg_hi_magenta = ⟨b.content ++ [Entity.Ansi Ansi.FgHiMagenta], b.no_color, b.force_color⟩ ∧
    b.fg_hi_cyan = ⟨b.content ++ [Entity.Ansi Ansi.FgHiCyan], b.no_color, b.force_color⟩ ∧
    b.fg_hi_white = ⟨b.content ++ [Entity.Ansi Ansi.FgHiWhite], b.no_color, b.force_color⟩ ∧
    b.bg_black = ⟨b.content ++ [Entity.Ansi Ansi.BgBlack], b.no_color, b.force_color⟩ ∧
    b.bg_red = ⟨b.content ++ [Entity.Ansi Ansi.BgRed], b.no_color, b.force_color⟩ ∧
    b.bg_green = ⟨b.content ++ [Entity.Ansi Ansi.BgGreen], b.no_color, b.force_color⟩ ∧
    b.bg_yellow = ⟨b.content ++ [Entity.Ansi Ansi.BgYellow], b.no_color, b.force_color⟩ ∧
    b.bg_blue = ⟨b.content ++ [Entity.Ansi Ansi.BgBlue], b.no_color, b.force_color⟩ ∧
    b.bg_magenta = ⟨b.content ++ [Entity.Ansi Ansi.BgMagenta], b.no_color, b.force_color⟩ ∧
    b.bg_cyan = ⟨b.content ++ [Entity.Ansi Ansi.BgCyan], b.no_color, b.force_color⟩ ∧
    b.bg_white = ⟨b.content ++ [Entity.Ansi Ansi.BgWhite], b.no_color, b.force_color⟩ ∧
    b.bg_hi_black = ⟨b.content ++ [Entity.Ansi Ansi.BgHiBlack], b.no_color, b.force_color⟩ ∧
    b.bg_hi_red = ⟨b.content ++ [Entity.Ansi Ansi.BgHiRed], b.no_color, b.force_color⟩ ∧
    b.bg_hi_green = ⟨b.content ++ [Entity.Ansi Ansi.BgHiGreen], b.no_color, b.force_color⟩ ∧
    b.bg_hi_yellow = ⟨b.content ++ [Entity.Ansi Ansi.BgHiYellow], b.no_color, b.force_color⟩ ∧
    b.bg_hi_blue = ⟨b.content ++ [Entity.Ansi Ansi.BgHiBlue], b.no_color, b.force_color⟩ ∧
    b.bg_hi_magenta = ⟨b.content ++ [Entity.Ansi Ansi.BgHiMagenta], b.no_color, b.force_color⟩ ∧
    b.bg_hi_cyan = ⟨b.content ++ [Entity.Ansi Ansi.BgHiCyan], b.no_color, b.force_color⟩ ∧
    b.bg_hi_white = ⟨b.content ++ [Entity.Ansi Ansi.BgHiWhite], b.no_color, b.force_color⟩ :=
  ⟨rfl, rfl, rfl, rfl, rfl, rfl, rfl, rfl, rfl, rfl, rfl, rfl, rfl, rfl, rfl, rfl, rfl, rfl, rfl, rfl, rfl, rfl, rfl, rfl, rfl, rfl, rfl, rfl, rfl, rfl, rfl, rfl, rfl, rfl, rfl, rfl, rfl, rfl, rfl, rfl, rfl, rfl, rfl, rfl⟩

/-- C10: formatting a builder through its `Display` implementation yields
exactly the string of the inherent `to_string` method. -/
theorem display_eq_to_string (b : Builder) :
    Builder.display b = Builder.to_string b := by
  rw [Builder.display]
  cases h : Builder.to_string b <;> simp [fmt_write, String.empty_append]
